import Mathlib

/-!
Shallow embedding of the `mas_perception_libs` Boost.Python binding layer
(`src/mas_perception_libs/ros/src/boost_python_module.cpp`) together with the
spec-described algorithmic core it exposes.  Python tuples of numerics are
modelled as `List ℚ`, C++ `cv::Mat` matrices as a structure with row/column
counts and row-major rational data, ROS point cloud messages as a grid of 3D
points, and every C++ exception as an `Except CppError` result.
-/

deriving instance DecidableEq for Except

namespace MasPerceptionLibs

/-- C++ exception kinds raised by the binding layer: `std::invalid_argument`
and `std::runtime_error`, each carrying its message string. -/
inductive CppError where
  | invalidArgument (msg : String)
  | runtimeError (msg : String)
deriving DecidableEq, Repr

/-- Model of C++ `static_cast<int>` applied to a `double` (here an exact
rational): truncation toward zero. -/
def cIntCast (q : ℚ) : Int :=
  if 0 ≤ q.num then ((q.num.toNat / q.den : ℕ) : Int)
  else -(((-q.num).toNat / q.den : ℕ) : Int)

/-- The `BoundingBox2D` record: label, RGB color (as produced by `CV_RGB`
from three int channel values) and integer geometry fields
`mX, mY, mWidth, mHeight`. -/
structure BoundingBox2D where
  mLabel : String
  mColor : Int × Int × Int
  mX : Int
  mY : Int
  mWidth : Int
  mHeight : Int
deriving DecidableEq, Repr

/-- Constructor of `BoundingBox2DWrapper` (boost_python_module.cpp lines
77-99): checks that the color tuple has exactly 3 elements and the geometry
tuple exactly 4, throwing `std::invalid_argument` otherwise; each element is
extracted as a double and cast to `int` (truncation toward zero).  No range
check is performed on any extracted value. -/
def mkBoundingBox2DWrapper (pLabel : String) (pColor : List ℚ) (pBox : List ℚ) :
    Except CppError BoundingBox2D :=
  if pColor.length ≠ 3 then
    .error (.invalidArgument "pColor is not a 3-tuple containing integers")
  else if pBox.length ≠ 4 then
    .error (.invalidArgument "box geometry is not a tuple containing 4 numerics")
  else
    .ok { mLabel := pLabel
          mColor := (cIntCast (pColor.getD 0 0), cIntCast (pColor.getD 1 0),
                     cIntCast (pColor.getD 2 0))
          mX := cIntCast (pBox.getD 0 0)
          mY := cIntCast (pBox.getD 1 0)
          mWidth := cIntCast (pBox.getD 2 0)
          mHeight := cIntCast (pBox.getD 3 0) }

/-- A `cv::Rect` with integer position and size. -/
structure CvRect where
  x : Int
  y : Int
  width : Int
  height : Int
deriving DecidableEq, Repr

/-- `BoundingBox2D::getCvRect`: the box geometry as a `cv::Rect`. -/
def BoundingBox2D.getCvRect (b : BoundingBox2D) : CvRect :=
  ⟨b.mX, b.mY, b.mWidth, b.mHeight⟩

/-- `BoundingBox2D::updateBox`: replaces the geometry fields with those of the
given rectangle, keeping label and color. -/
def BoundingBox2D.updateBox (b : BoundingBox2D) (r : CvRect) : BoundingBox2D :=
  { b with mX := r.x, mY := r.y, mWidth := r.width, mHeight := r.height }

/-- Modelled from the spec: the C++ function `fitBoxToImage` is defined in
`bounding_box_2d.cpp`, which is not under `src/`.  Spec §4.1: "clamps box to
lie within [0,width)×[0,height), expanded/contracted by `offset` pixels on
each side, ensuring width,height remain ≥1 after clamping. Fails with
`InvalidArgument` if the resulting width or height would be ≤0." -/
def fitBoxToImage (imageSize : Int × Int) (rect : CvRect) (offset : Int) :
    Except CppError CvRect :=
  let xMin := max 0 (rect.x - offset)
  let yMin := max 0 (rect.y - offset)
  let xMax := min imageSize.1 (rect.x + rect.width + offset)
  let yMax := min imageSize.2 (rect.y + rect.height + offset)
  if xMax - xMin ≤ 0 ∨ yMax - yMin ≤ 0 then
    .error (.invalidArgument "failed to fit box to image")
  else
    .ok ⟨xMin, yMin, xMax - xMin, yMax - yMin⟩

/-- `fitBoxToImageWrapper` (boost_python_module.cpp lines 127-140): checks
that the image size tuple has exactly 2 elements, throwing
`std::invalid_argument` otherwise; extracts width and height as ints, fits
the box's rectangle to the image and returns the box with updated
geometry. -/
def fitBoxToImageWrapper (pImageSizeTuple : List ℚ) (pBox : BoundingBox2D)
    (pOffset : Int) : Except CppError BoundingBox2D :=
  if pImageSizeTuple.length ≠ 2 then
    .error (.invalidArgument "image size is not a tuple containing 2 numerics")
  else
    let width := cIntCast (pImageSizeTuple.getD 0 0)
    let height := cIntCast (pImageSizeTuple.getD 1 0)
    match fitBoxToImage (width, height) pBox.getCvRect pOffset with
    | .error e => .error e
    | .ok adjustedBox => .ok (pBox.updateBox adjustedBox)

/-- A 3D point of an organized cloud, with exact rational coordinates. -/
structure Point3D where
  x : ℚ
  y : ℚ
  z : ℚ
deriving DecidableEq, Repr

/-- A `sensor_msgs/PointCloud2` message holding an organized grid of 3D
points: `height` rows of `width` points each, in row-major order. -/
structure PointCloud2 where
  height : Nat
  width : Nat
  data : List (List Point3D)
deriving DecidableEq, Repr

/-- A `cv::Mat` of rationals, with explicit row and column counts and
row-major data. -/
structure CvMat where
  rows : Nat
  cols : Nat
  data : List (List ℚ)
deriving DecidableEq, Repr

/-- Entry of a `CvMat` at row `r`, column `c` (0 outside the data). -/
def CvMat.entry (m : CvMat) (r c : Nat) : ℚ :=
  (m.data.getD r []).getD c 0

/-- Model of the external `pcl_ros::transformPointCloud`: applies the affine
4×4 matrix to every point of the cloud, keeping the grid dimensions. -/
def transformPointCloud (m : CvMat) (cloud : PointCloud2) : PointCloud2 :=
  { cloud with
    data := cloud.data.map (List.map fun p =>
      ⟨m.entry 0 0 * p.x + m.entry 0 1 * p.y + m.entry 0 2 * p.z + m.entry 0 3,
       m.entry 1 0 * p.x + m.entry 1 1 * p.y + m.entry 1 2 * p.z + m.entry 1 3,
       m.entry 2 0 * p.x + m.entry 2 1 * p.y + m.entry 2 2 * p.z + m.entry 2 3⟩) }

/-- `transformPointCloudWrapper` (boost_python_module.cpp lines 229-249):
converts the transformation matrix from an ndarray, throws
`std::runtime_error` ("transformation is not a 4x4 matrix") unless it has 4
rows and 4 columns, then unserializes the cloud and transforms it. -/
def transformPointCloudWrapper (pSerialCloud : PointCloud2) (pTfMatrix : CvMat) :
    Except CppError PointCloud2 :=
  if pTfMatrix.rows ≠ 4 ∨ pTfMatrix.cols ≠ 4 then
    .error (.runtimeError "transformation is not a 4x4 matrix")
  else
    .ok (transformPointCloud pTfMatrix pSerialCloud)

/-- A `sensor_msgs/Image` message, modelled by its grid dimensions. -/
structure ImageMsg where
  height : Nat
  width : Nat
deriving DecidableEq, Repr

/-- Model of the external `pcl::toROSMsg` overload converting an organized
cloud message to a `sensor_msgs/Image` with the same grid dimensions. -/
def toROSMsg (cloud : PointCloud2) : ImageMsg :=
  ⟨cloud.height, cloud.width⟩

/-- `cloudMsgToImageMsgWrapper` (boost_python_module.cpp lines 175-190):
throws `std::invalid_argument` ("Input point cloud is not organized!") when
the cloud's height is ≤ 1, otherwise converts the cloud to an image message
with `pcl::toROSMsg`. -/
def cloudMsgToImageMsgWrapper (pSerialCloud : PointCloud2) :
    Except CppError ImageMsg :=
  if pSerialCloud.height ≤ 1 then
    .error (.invalidArgument "Input point cloud is not organized!")
  else
    .ok (toROSMsg pSerialCloud)

/-- The sub-grid of a row-major grid: rows `y ≤ r < y + h`, columns
`x ≤ c < x + w`, preserving row/column order. -/
def subGrid {α : Type} (data : List (List α)) (x y w h : Nat) : List (List α) :=
  ((data.drop y).take h).map fun row => (row.drop x).take w

/-- Modelled from the spec: the C++ function `cropOrganizedCloudMsg` is
defined in `point_cloud_utils.cpp`, which is not under `src/`.  Spec §4.3:
requires `cloud.height > 1`, failing `InvalidArgument` ("not organized")
otherwise; extracts the sub-grid of points whose pixel coordinates fall
within the box after bounds-clamping with `fitToImage` semantics at offset
0, returning a new organized sub-grid preserving row/column order. -/
def cropOrganizedCloudMsg (cloud : PointCloud2) (box : BoundingBox2D) :
    Except CppError PointCloud2 :=
  if cloud.height ≤ 1 then
    .error (.invalidArgument "not organized")
  else
    match fitBoxToImage ((cloud.width : Int), (cloud.height : Int)) box.getCvRect 0 with
    | .error e => .error e
    | .ok fitted =>
        .ok { height := fitted.height.toNat
              width := fitted.width.toNat
              data := subGrid cloud.data fitted.x.toNat fitted.y.toNat
                        fitted.width.toNat fitted.height.toNat }

/-- `cropOrganizedCloudMsgWrapper` (boost_python_module.cpp lines 196-206):
unserializes the cloud and delegates to the C++ function
`cropOrganizedCloudMsg`. -/
def cropOrganizedCloudMsgWrapper (pSerialCloud : PointCloud2)
    (pBox : BoundingBox2D) : Except CppError PointCloud2 :=
  cropOrganizedCloudMsg pSerialCloud pBox

/-- Modelled from the spec: the C++ function `cropCloudMsgToXYZ` is defined
in `point_cloud_utils.cpp`, which is not under `src/`.  Spec §4.3: "same
extraction but flattens the result into a sequential array of (x,y,z)
triples in row-major scan order"; scan index `i` addresses row `i / w` and
column `i % w` of the fitted sub-grid. -/
def cropCloudMsgToXYZ (cloud : PointCloud2) (box : BoundingBox2D) :
    Except CppError (List Point3D) :=
  if cloud.height ≤ 1 then
    .error (.invalidArgument "not organized")
  else
    match fitBoxToImage ((cloud.width : Int), (cloud.height : Int)) box.getCvRect 0 with
    | .error e => .error e
    | .ok fitted =>
        .ok ((List.range (fitted.height.toNat * fitted.width.toNat)).map fun i =>
          (cloud.data.getD (fitted.y.toNat + i / fitted.width.toNat) []).getD
            (fitted.x.toNat + i % fitted.width.toNat) ⟨0, 0, 0⟩)

/-- `cropCloudMsgToXYZWrapper` (boost_python_module.cpp lines 212-223):
unserializes the cloud and delegates to the C++ function
`cropCloudMsgToXYZ`. -/
def cropCloudMsgToXYZWrapper (pSerialCloud : PointCloud2)
    (pBox : BoundingBox2D) : Except CppError (List Point3D) :=
  cropCloudMsgToXYZ pSerialCloud pBox

/-- A BGR pixel of an image buffer. -/
structure Pixel where
  b : Int
  g : Int
  r : Int
deriving DecidableEq, Repr

/-- Whether pixel `(row, col)` lies on the rectangle outline of box `b`
drawn with the given line thickness. -/
def onBoxBorder (bb : BoundingBox2D) (thickness row col : Int) : Bool :=
  decide (bb.mX ≤ col ∧ col < bb.mX + bb.mWidth ∧
    bb.mY ≤ row ∧ row < bb.mY + bb.mHeight ∧
    (col < bb.mX + thickness ∨ bb.mX + bb.mWidth - thickness ≤ col ∨
     row < bb.mY + thickness ∨ bb.mY + bb.mHeight - thickness ≤ row))

/-- The box's color as a pixel value. -/
def boxPixel (bb : BoundingBox2D) : Pixel :=
  ⟨bb.mColor.2.2, bb.mColor.2.1, bb.mColor.1⟩

/-- Modelled from the spec: the C++ function `drawLabeledBoxes` is defined
in `bounding_box_2d.cpp`, which is not under `src/`.  Spec §4.2: draws each
box's rectangle outline (given `thickness`) and label text (at `fontScale`)
in the box's color, boxes in list order, later boxes over earlier ones; the
glyph rasterization of the label text by the external OpenCV `putText` is
abstracted into the outline drawing. -/
def drawLabeledBoxes (image : List (List Pixel)) (boxes : List BoundingBox2D)
    (thickness : Int) (fontScale : ℚ) : List (List Pixel) :=
  let _ := fontScale
  boxes.foldl (fun img bb =>
    img.mapIdx fun row line =>
      line.mapIdx fun col p =>
        if onBoxBorder bb thickness (row : Int) (col : Int) then boxPixel bb
        else p) image

/-- Modelled from the spec: `pbcvt::fromNDArrayToMat` (pyboostcvconverter,
not under `src/`).  Spec §2/§5 treat the buffer interchange between the
caller's array and the native pixel grid as a conversion producing an
independent buffer with the same pixel values, which does not alias the
caller's array. -/
def fromNDArrayToMat (pNdarrayImage : List (List Pixel)) : List (List Pixel) :=
  pNdarrayImage

/-- Modelled from the spec: `pbcvt::fromMatToNDArray` (pyboostcvconverter,
not under `src/`), the reverse buffer conversion; again an independent
buffer with the same pixel values. -/
def fromMatToNDArray (image : List (List Pixel)) : List (List Pixel) :=
  image

/-- `drawLabeledBoxesWrapper` (boost_python_module.cpp lines 105-122):
converts the input ndarray to a `cv::Mat`, draws the box list on that mat,
and converts the result back to a new ndarray which is returned.  The
result pair is (the caller's input buffer as it stands after the call, the
returned buffer): the drawing happens on the converted mat, an independent
buffer (see `fromNDArrayToMat`), so the caller's buffer is returned
unchanged in the first component. -/
def drawLabeledBoxesWrapper (pNdarrayImage : List (List Pixel))
    (pBoxList : List BoundingBox2D) (pThickness : Int) (pFontScale : ℚ) :
    List (List Pixel) × List (List Pixel) :=
  let image := fromNDArrayToMat pNdarrayImage
  let drawn := drawLabeledBoxes image pBoxList pThickness pFontScale
  (pNdarrayImage, fromMatToNDArray drawn)

/-- A concrete 2×2 organized point cloud used as evaluation input. -/
def cloudEx : PointCloud2 :=
  ⟨2, 2, [[⟨1, 2, 3⟩, ⟨4, 5, 6⟩], [⟨7, 8, 9⟩, ⟨10, 11, 12⟩]]⟩

/-- A concrete 3×3 matrix (not 4×4) used as evaluation input. -/
def tfMatrix3x3 : CvMat :=
  ⟨3, 3, [[1, 0, 0], [0, 1, 0], [0, 0, 1]]⟩

end MasPerceptionLibs

namespace MasPerceptionLibs

/-- C4: as stated the claim is false: the constructor performs no range check
on color channel values, so a 3-tuple with a channel outside [0,255]
constructs successfully instead of failing with `InvalidArgument`. -/
theorem c4_counterexample :
    mkBoundingBox2DWrapper "obj" [300, 0, 0] [0, 0, 1, 1] =
      Except.ok { mLabel := "obj", mColor := (300, 0, 0),
                  mX := 0, mY := 0, mWidth := 1, mHeight := 1 } := by
  rfl

/-- C4 (amended): Box2D construction validates only that the color argument
has exactly 3 elements (failing with `InvalidArgument` otherwise); the
channel values themselves are cast to int without any [0,255] range check,
so any 3-element numeric color is accepted. -/
theorem c4_color_arity_only (label : String) (c g : List ℚ) (hg : g.length = 4) :
    (c.length = 3 → ∃ b, mkBoundingBox2DWrapper label c g = Except.ok b) ∧
    (c.length ≠ 3 → mkBoundingBox2DWrapper label c g =
      Except.error (CppError.invalidArgument "pColor is not a 3-tuple containing integers")) := by
  constructor
  · intro hc
    refine ⟨{ mLabel := label
              mColor := (cIntCast (c.getD 0 0), cIntCast (c.getD 1 0), cIntCast (c.getD 2 0))
              mX := cIntCast (g.getD 0 0)
              mY := cIntCast (g.getD 1 0)
              mWidth := cIntCast (g.getD 2 0)
              mHeight := cIntCast (g.getD 3 0) }, ?_⟩
    simp [mkBoundingBox2DWrapper, hc, hg]
  · intro hc
    simp [mkBoundingBox2DWrapper, hc]

/-- C4 witness: the amended statement evaluated at concrete inputs, on a
color with a channel value 300 outside [0,255] and on a 2-element color. -/
theorem c4_color_arity_only_witness :
    (∃ b, mkBoundingBox2DWrapper "obj" [300, 0, 0] [0, 0, 1, 1] = Except.ok b) ∧
    (mkBoundingBox2DWrapper "obj" [0, 0] [0, 0, 1, 1] =
      Except.error (CppError.invalidArgument "pColor is not a 3-tuple containing integers")) :=
  ⟨(c4_color_arity_only "obj" [300, 0, 0] [0, 0, 1, 1] (by decide)).1 (by decide),
   (c4_color_arity_only "obj" [0, 0] [0, 0, 1, 1] (by decide)).2 (by decide)⟩

/-- C5: construction fails with `InvalidArgument` when the color tuple does
not have exactly 3 elements or the geometry tuple does not have exactly 4
elements; with a 3-element color and 4-element numeric geometry it succeeds
and stores the label, color and the truncated x, y, width, height. -/
theorem c5_ctor_arity (label : String) (c g : List ℚ) :
    (c.length ≠ 3 → mkBoundingBox2DWrapper label c g =
      Except.error (CppError.invalidArgument "pColor is not a 3-tuple containing integers")) ∧
    (c.length = 3 → g.length ≠ 4 → mkBoundingBox2DWrapper label c g =
      Except.error (CppError.invalidArgument "box geometry is not a tuple containing 4 numerics")) ∧
    (c.length = 3 → g.length = 4 → mkBoundingBox2DWrapper label c g =
      Except.ok { mLabel := label
                  mColor := (cIntCast (c.getD 0 0), cIntCast (c.getD 1 0), cIntCast (c.getD 2 0))
                  mX := cIntCast (g.getD 0 0)
                  mY := cIntCast (g.getD 1 0)
                  mWidth := cIntCast (g.getD 2 0)
                  mHeight := cIntCast (g.getD 3 0) }) := by
  refine ⟨fun hc => ?_, fun hc hg => ?_, fun hc hg => ?_⟩
  · simp [mkBoundingBox2DWrapper, hc]
  · simp [mkBoundingBox2DWrapper, hc, hg]
  · simp [mkBoundingBox2DWrapper, hc, hg]

/-- C5 witness: arity failures and a successful construction at concrete
inputs. -/
theorem c5_ctor_arity_witness :
    (mkBoundingBox2DWrapper "a" [1, 2] [0, 0, 1, 1] =
      Except.error (CppError.invalidArgument "pColor is not a 3-tuple containing integers")) ∧
    (mkBoundingBox2DWrapper "a" [1, 2, 3] [0, 0, 1] =
      Except.error (CppError.invalidArgument "box geometry is not a tuple containing 4 numerics")) ∧
    (mkBoundingBox2DWrapper "a" [1, 2, 3] [5, 6, 7, 8] =
      Except.ok { mLabel := "a", mColor := (1, 2, 3),
                  mX := 5, mY := 6, mWidth := 7, mHeight := 8 }) :=
  ⟨(c5_ctor_arity "a" [1, 2] [0, 0, 1, 1]).1 (by decide),
   (c5_ctor_arity "a" [1, 2, 3] [0, 0, 1]).2.1 (by decide) (by decide),
   by
    have h := (c5_ctor_arity "a" [1, 2, 3] [5, 6, 7, 8]).2.2 (by decide) (by decide)
    rw [h]
    decide⟩

/-- C10: Box2D construction accepts arbitrary numeric geometry values,
truncating each toward zero; no sign or size constraint is imposed, so the
stored box can have negative x, negative y, or non-positive width and
height — only the 4-element arity of the geometry tuple is checked. -/
theorem c10_ctor_truncates (label : String) (c g : List ℚ)
    (hc : c.length = 3) (hg : g.length = 4) :
    mkBoundingBox2DWrapper label c g =
      Except.ok { mLabel := label
                  mColor := (cIntCast (c.getD 0 0), cIntCast (c.getD 1 0), cIntCast (c.getD 2 0))
                  mX := cIntCast (g.getD 0 0)
                  mY := cIntCast (g.getD 1 0)
                  mWidth := cIntCast (g.getD 2 0)
                  mHeight := cIntCast (g.getD 3 0) } := by
  simp [mkBoundingBox2DWrapper, hc, hg]

lemma cIntCast_natCast (n : ℕ) : cIntCast (n : ℚ) = (n : Int) := by
  simp [cIntCast, Rat.num_natCast, Rat.den_natCast]

lemma fitBoxToImage_inside (W H x0 y0 w0 h0 : Int)
    (hx : 0 ≤ x0) (hy : 0 ≤ y0) (hw : 0 < w0) (hh : 0 < h0)
    (hxw : x0 + w0 ≤ W) (hyh : y0 + h0 ≤ H) :
    fitBoxToImage (W, H) ⟨x0, y0, w0, h0⟩ 0 = Except.ok ⟨x0, y0, w0, h0⟩ := by
  simp only [fitBoxToImage]
  rw [if_neg (by omega)]
  simp only [Except.ok.injEq, CvRect.mk.injEq]
  omega

/-- C7: a box with positive width and height lying entirely inside the image
bounds is returned unchanged by `fitBoxToImage` at offset 0: identical x, y,
width, height, and untouched label and color. -/
theorem c7_fit_inside_identity (Wn Hn : ℕ) (box : BoundingBox2D)
    (hx : 0 ≤ box.mX) (hy : 0 ≤ box.mY)
    (hw : 0 < box.mWidth) (hh : 0 < box.mHeight)
    (hxw : box.mX + box.mWidth ≤ (Wn : Int))
    (hyh : box.mY + box.mHeight ≤ (Hn : Int)) :
    fitBoxToImageWrapper [(Wn : ℚ), (Hn : ℚ)] box 0 = Except.ok box := by
  have hfit : fitBoxToImage ((Wn : Int), (Hn : Int)) box.getCvRect 0 =
      Except.ok box.getCvRect :=
    fitBoxToImage_inside _ _ _ _ _ _ hx hy hw hh hxw hyh
  simp only [fitBoxToImageWrapper, List.length_cons, List.length_nil,
    List.getD_cons_zero, List.getD_cons_succ, cIntCast_natCast]
  rw [if_neg (by decide), hfit]
  rfl

/-- C7 witness: the wrapper at image size (10, 8), a 4×3 box at (2, 1) and
offset 0 returns the identical box. -/
theorem c7_fit_inside_identity_witness :
    fitBoxToImageWrapper [(10 : ℕ), (8 : ℕ)]
      { mLabel := "b", mColor := (1, 2, 3), mX := 2, mY := 1,
        mWidth := 4, mHeight := 3 } 0 =
    Except.ok { mLabel := "b", mColor := (1, 2, 3), mX := 2, mY := 1,
                mWidth := 4, mHeight := 3 } :=
  c7_fit_inside_identity 10 8 _ (by decide) (by decide) (by decide) (by decide)
    (by decide) (by decide)

/-- C9: when the image-size argument is not a 2-element tuple, the wrapper
fails with `InvalidArgument` ("image size is not a tuple containing 2
numerics"), and the result does not depend on the box at all — the box is
neither examined nor modified. -/
theorem c9_image_size_arity (t : List ℚ) (box box2 : BoundingBox2D)
    (off : Int) (h : t.length ≠ 2) :
    fitBoxToImageWrapper t box off =
      Except.error (CppError.invalidArgument
        "image size is not a tuple containing 2 numerics") ∧
    fitBoxToImageWrapper t box off = fitBoxToImageWrapper t box2 off := by
  constructor
  · simp [fitBoxToImageWrapper, h]
  · simp [fitBoxToImageWrapper, h]

/-- C9 witness: a 3-element image size tuple fails identically for two
different boxes. -/
theorem c9_image_size_arity_witness :
    fitBoxToImageWrapper [1, 2, 3]
        { mLabel := "a", mColor := (0, 0, 0), mX := 0, mY := 0,
          mWidth := 1, mHeight := 1 } 0 =
      Except.error (CppError.invalidArgument
        "image size is not a tuple containing 2 numerics") ∧
    fitBoxToImageWrapper [1, 2, 3]
        { mLabel := "a", mColor := (0, 0, 0), mX := 0, mY := 0,
          mWidth := 1, mHeight := 1 } 0 =
      fitBoxToImageWrapper [1, 2, 3]
        { mLabel := "z", mColor := (9, 9, 9), mX := 5, mY := 6,
          mWidth := 7, mHeight := 8 } 0 :=
  c9_image_size_arity [1, 2, 3] _ _ 0 (by decide)

/-- C1: as stated the claim is false: a 3×3 transformation matrix makes the
wrapper fail with `std::runtime_error` ("transformation is not a 4x4
matrix"), not with `InvalidArgument` carrying "not a 4x4 matrix". -/
theorem c1_counterexample :
    transformPointCloudWrapper cloudEx tfMatrix3x3 =
      Except.error (CppError.runtimeError "transformation is not a 4x4 matrix") ∧
    transformPointCloudWrapper cloudEx tfMatrix3x3 ≠
      Except.error (CppError.invalidArgument "not a 4x4 matrix") := by
  constructor
  · rfl
  · decide

/-- C1 (amended): for every transformation matrix that is not exactly 4×4,
the wrapper fails with `RuntimeError` carrying the message "transformation
is not a 4x4 matrix" (which contains "not a 4x4 matrix"), and no transformed
cloud is produced. -/
theorem c1_non4x4_fails (cloud : PointCloud2) (m : CvMat)
    (h : m.rows ≠ 4 ∨ m.cols ≠ 4) :
    transformPointCloudWrapper cloud m =
      Except.error (CppError.runtimeError "transformation is not a 4x4 matrix") := by
  simp [transformPointCloudWrapper, h]

/-- C1 witness: the amended statement at the concrete 3×3 matrix. -/
theorem c1_non4x4_fails_witness :
    transformPointCloudWrapper cloudEx tfMatrix3x3 =
      Except.error (CppError.runtimeError "transformation is not a 4x4 matrix") :=
  c1_non4x4_fails cloudEx tfMatrix3x3 (Or.inl (by decide))

/-- C2: for every point cloud whose height is ≤ 1, `cropOrganizedCloudMsg`
(via its wrapper) fails with `InvalidArgument` ("not organized") and no
cropped cloud is produced, for every box. -/
theorem c2_unorganized_fails (cloud : PointCloud2) (box : BoundingBox2D)
    (h : cloud.height ≤ 1) :
    cropOrganizedCloudMsgWrapper cloud box =
      Except.error (CppError.invalidArgument "not organized") := by
  simp [cropOrganizedCloudMsgWrapper, cropOrganizedCloudMsg, h]

/-- C2 witness: a height-1 cloud fails with "not organized". -/
theorem c2_unorganized_fails_witness :
    cropOrganizedCloudMsgWrapper ⟨1, 2, [[⟨1, 2, 3⟩, ⟨4, 5, 6⟩]]⟩
        { mLabel := "a", mColor := (0, 0, 0), mX := 0, mY := 0,
          mWidth := 1, mHeight := 1 } =
      Except.error (CppError.invalidArgument "not organized") :=
  c2_unorganized_fails _ _ (by decide)

/-- C6: the cloud-to-image-message conversion fails with `InvalidArgument`
("Input point cloud is not organized!") exactly when the cloud's height is
≤ 1, and produces an image message for every cloud of height > 1. -/
theorem c6_cloud_to_image (cloud : PointCloud2) :
    (cloud.height ≤ 1 → cloudMsgToImageMsgWrapper cloud =
      Except.error (CppError.invalidArgument "Input point cloud is not organized!")) ∧
    (1 < cloud.height → cloudMsgToImageMsgWrapper cloud =
      Except.ok (toROSMsg cloud)) := by
  constructor
  · intro h
    simp [cloudMsgToImageMsgWrapper, h]
  · intro h
    simp [cloudMsgToImageMsgWrapper, Nat.not_le.mpr h]

/-- C6 witness: a height-1 cloud fails and the concrete 2×2 cloud converts
to an image message. -/
theorem c6_cloud_to_image_witness :
    (cloudMsgToImageMsgWrapper ⟨1, 2, [[⟨1, 2, 3⟩, ⟨4, 5, 6⟩]]⟩ =
      Except.error (CppError.invalidArgument "Input point cloud is not organized!")) ∧
    (cloudMsgToImageMsgWrapper cloudEx = Except.ok (toROSMsg cloudEx)) :=
  ⟨(c6_cloud_to_image _).1 (by decide), (c6_cloud_to_image cloudEx).2 (by decide)⟩

lemma drawLabeledBoxes_cons (img : List (List Pixel)) (bb : BoundingBox2D)
    (bs : List BoundingBox2D) (t : Int) (f : ℚ) :
    drawLabeledBoxes img (bb :: bs) t f =
      drawLabeledBoxes
        (img.mapIdx fun row line =>
          line.mapIdx fun col p =>
            if onBoxBorder bb t (row : Int) (col : Int) then boxPixel bb
            else p)
        bs t f := rfl

lemma map_length_drawLabeledBoxes (img : List (List Pixel))
    (boxes : List BoundingBox2D) (t : Int) (f : ℚ) :
    (drawLabeledBoxes img boxes t f).map List.length = img.map List.length := by
  induction boxes generalizing img with
  | nil => rfl
  | cons bb bs ih =>
    rw [drawLabeledBoxes_cons, ih]
    apply List.ext_getElem
    · simp
    · intro i h1 h2
      simp [List.getElem_mapIdx]

/-- C3: the draw operation leaves the caller's input image buffer unchanged
(first component of the wrapper's result, the caller's buffer after the
call) and returns a freshly drawn buffer equal to `drawLabeledBoxes` of the
input, a grid of the same shape with the boxes drawn in list order. -/
theorem c3_draw_returns_new_buffer (img : List (List Pixel))
    (boxes : List BoundingBox2D) (t : Int) (f : ℚ) :
    (drawLabeledBoxesWrapper img boxes t f).1 = img ∧
    (drawLabeledBoxesWrapper img boxes t f).2 = drawLabeledBoxes img boxes t f ∧
    ((drawLabeledBoxesWrapper img boxes t f).2).map List.length =
      img.map List.length :=
  ⟨rfl, rfl, map_length_drawLabeledBoxes img boxes t f⟩

lemma take_drop_eq_range_map {α : Type} (d : α) (row : List α) (x w : Nat)
    (h : x + w ≤ row.length) :
    (row.drop x).take w = (List.range w).map (fun c => row.getD (x + c) d) := by
  induction w generalizing x with
  | zero => simp
  | succ w ih =>
    have hx : x < row.length := by omega
    rw [List.drop_eq_getElem_cons hx, List.take_succ_cons, ih (x + 1) (by omega),
      List.range_succ_eq_map, List.map_cons, List.map_map]
    congr 1
    · rw [show x + 0 = x from rfl, List.getD_eq_getElem row d hx]
    · apply List.map_congr_left
      intro c _
      simp only [Function.comp_apply]
      congr 1
      omega

lemma flatten_subGrid {α : Type} (d : α) (data : List (List α)) (x y w h W : Nat)
    (hrow : ∀ row ∈ data, row.length = W)
    (hx : x + w ≤ W) (hw : 0 < w) (hy : y + h ≤ data.length) :
    (subGrid data x y w h).flatten =
      (List.range (h * w)).map
        (fun i => (data.getD (y + i / w) []).getD (x + i % w) d) := by
  induction h generalizing y with
  | zero => simp [subGrid]
  | succ h ih =>
    have hylt : y < data.length := by omega
    have hstep : subGrid data x y w (h + 1) =
        ((data[y].drop x).take w) :: subGrid data x (y + 1) w h := by
      simp only [subGrid]
      rw [List.drop_eq_getElem_cons hylt, List.take_succ_cons, List.map_cons]
    have hrowy : data[y].length = W := hrow _ (List.getElem_mem hylt)
    rw [hstep, List.flatten_cons, ih (y + 1) (by omega),
      take_drop_eq_range_map d data[y] x w (by omega)]
    have hmul : (h + 1) * w = w + h * w := by ring
    rw [hmul, List.range_add, List.map_append, List.map_map]
    congr 1
    · apply List.map_congr_left
      intro c hc
      have hcw : c < w := List.mem_range.mp hc
      rw [Nat.div_eq_of_lt hcw, Nat.mod_eq_of_lt hcw, Nat.add_zero,
        List.getD_eq_getElem data [] hylt]
    · apply List.map_congr_left
      intro j _
      simp only [Function.comp_apply]
      have h1 : (w + j) / w = j / w + 1 := by
        rw [Nat.add_comm w j, Nat.add_div_right _ hw]
      have h2 : (w + j) % w = j % w := Nat.add_mod_left w j
      rw [h1, h2]
      congr 2
      omega

lemma fitBoxToImage_ok_bounds {W H : Int} {r : CvRect} {off fx fy fw fh : Int}
    (h : fitBoxToImage (W, H) r off = Except.ok ⟨fx, fy, fw, fh⟩) :
    0 ≤ fx ∧ 0 ≤ fy ∧ 0 < fw ∧ 0 < fh ∧ fx + fw ≤ W ∧ fy + fh ≤ H := by
  simp only [fitBoxToImage] at h
  by_cases hc : min W (r.x + r.width + off) - max 0 (r.x - off) ≤ 0 ∨
      min H (r.y + r.height + off) - max 0 (r.y - off) ≤ 0
  · rw [if_pos hc] at h
    cases h
  · rw [if_neg hc] at h
    simp only [Except.ok.injEq, CvRect.mk.injEq] at h
    obtain ⟨h1, h2, h3, h4⟩ := h
    omega

/-- C8: as stated the claim is false: the flat array's length is the area of
the box after bounds-clamping, not `box.width * box.height` in general: on
the 2×2 organized cloud, a 10×10 box at the origin yields 4 coordinates, not
100. -/
theorem c8_counterexample :
    Except.map List.length
        (cropCloudMsgToXYZWrapper cloudEx
          { mLabel := "big", mColor := (0, 0, 0), mX := 0, mY := 0,
            mWidth := 10, mHeight := 10 }) = Except.ok 4 ∧
    (4 : Nat) ≠ 10 * 10 := by
  constructor
  · rfl
  · decide

/-- C8 (amended): for every organized well-formed cloud and box on which the
crop succeeds, the flat coordinate array of `cropCloudMsgToXYZ` has length
equal to the area of the cropped sub-grid returned by
`cropOrganizedCloudMsg` (which equals `box.width * box.height` whenever the
box already lies inside the cloud's grid), and it equals the row-major
flattening of that sub-grid, element by element. -/
theorem c8_crop_roundtrip (cloud : PointCloud2) (box : BoundingBox2D)
    (hlen : cloud.data.length = cloud.height)
    (hrow : ∀ row ∈ cloud.data, row.length = cloud.width)
    (xyz : List Point3D) (sub : PointCloud2)
    (hxyz : cropCloudMsgToXYZWrapper cloud box = Except.ok xyz)
    (hsub : cropOrganizedCloudMsgWrapper cloud box = Except.ok sub) :
    xyz.length = sub.height * sub.width ∧ xyz = sub.data.flatten ∧
    (0 ≤ box.mX → 0 ≤ box.mY → 0 < box.mWidth → 0 < box.mHeight →
      box.mX + box.mWidth ≤ (cloud.width : Int) →
      box.mY + box.mHeight ≤ (cloud.height : Int) →
      (xyz.length : Int) = box.mWidth * box.mHeight) := by
  simp only [cropCloudMsgToXYZWrapper, cropCloudMsgToXYZ,
    BoundingBox2D.getCvRect] at hxyz
  simp only [cropOrganizedCloudMsgWrapper, cropOrganizedCloudMsg,
    BoundingBox2D.getCvRect] at hsub
  by_cases hh1 : cloud.height ≤ 1
  · rw [if_pos hh1] at hxyz
    cases hxyz
  rw [if_neg hh1] at hxyz hsub
  cases hfit : fitBoxToImage ((cloud.width : Int), (cloud.height : Int))
      ⟨box.mX, box.mY, box.mWidth, box.mHeight⟩ 0 with
  | error e =>
    rw [hfit] at hxyz
    cases hxyz
  | ok fitted =>
    obtain ⟨fx, fy, fw, fh⟩ := fitted
    rw [hfit] at hxyz hsub
    simp only [Except.ok.injEq] at hxyz hsub
    obtain ⟨hbx, hby, hbw, hbh, hbxw, hbyh⟩ := fitBoxToImage_ok_bounds hfit
    subst hxyz
    subst hsub
    refine ⟨?_, ?_, ?_⟩
    · simp
    · rw [flatten_subGrid ⟨0, 0, 0⟩ cloud.data fx.toNat fy.toNat fw.toNat
        fh.toNat cloud.width hrow (by omega) (by omega) (by omega)]
    · intro h1 h2 h3 h4 h5 h6
      have hinside := fitBoxToImage_inside (cloud.width : Int)
        (cloud.height : Int) box.mX box.mY box.mWidth box.mHeight
        h1 h2 h3 h4 h5 h6
      rw [hfit] at hinside
      simp only [Except.ok.injEq, CvRect.mk.injEq] at hinside
      obtain ⟨-, -, hfw, hfh⟩ := hinside
      simp only [List.length_map, List.length_range]
      rw [hfw, hfh]
      push_cast [Int.toNat_of_nonneg h3.le, Int.toNat_of_nonneg h4.le]
      ring

/-- C8 witness: the amended statement at the 2×2 cloud and a box fully
inside it. -/
theorem c8_crop_roundtrip_witness :
    ([⟨1, 2, 3⟩, ⟨4, 5, 6⟩, ⟨7, 8, 9⟩, ⟨10, 11, 12⟩] : List Point3D).length =
        2 * 2 ∧
    ([⟨1, 2, 3⟩, ⟨4, 5, 6⟩, ⟨7, 8, 9⟩, ⟨10, 11, 12⟩] : List Point3D) =
        ([[⟨1, 2, 3⟩, ⟨4, 5, 6⟩], [⟨7, 8, 9⟩, ⟨10, 11, 12⟩]] :
          List (List Point3D)).flatten ∧
    (0 ≤ (0 : Int) → 0 ≤ (0 : Int) → 0 < (2 : Int) → 0 < (2 : Int) →
      (0 : Int) + 2 ≤ (2 : Nat) → (0 : Int) + 2 ≤ (2 : Nat) →
      (([⟨1, 2, 3⟩, ⟨4, 5, 6⟩, ⟨7, 8, 9⟩, ⟨10, 11, 12⟩] :
        List Point3D).length : Int) = 2 * 2) := by
  have h := c8_crop_roundtrip cloudEx
    { mLabel := "in", mColor := (0, 0, 0), mX := 0, mY := 0,
      mWidth := 2, mHeight := 2 }
    (by decide) (by decide)
    [⟨1, 2, 3⟩, ⟨4, 5, 6⟩, ⟨7, 8, 9⟩, ⟨10, 11, 12⟩]
    ⟨2, 2, [[⟨1, 2, 3⟩, ⟨4, 5, 6⟩], [⟨7, 8, 9⟩, ⟨10, 11, 12⟩]]⟩
    (by decide) (by decide)
  exact h

/-- C10 witness: geometry `(-5.7, -3.2, -2.5, 0.4)` is accepted and stored
truncated toward zero as `x = -5, y = -3, width = -2, height = 0`: negative
x and y and non-positive width and height all occur. -/
theorem c10_ctor_truncates_witness :
    mkBoundingBox2DWrapper "neg" [0, 0, 0]
        [mkRat (-57) 10, mkRat (-16) 5, mkRat (-5) 2, mkRat 2 5] =
      Except.ok { mLabel := "neg", mColor := (0, 0, 0),
                  mX := -5, mY := -3, mWidth := -2, mHeight := 0 } := by
  have h := c10_ctor_truncates "neg" [0, 0, 0]
    [mkRat (-57) 10, mkRat (-16) 5, mkRat (-5) 2, mkRat 2 5]
    (by decide) (by decide)
  rw [h]
  decide

end MasPerceptionLibs
